import Mathlib

/-!
Shallow embedding of the biokontrol-backend message-ingestion and
calibration code (JavaScript) into Lean 4.

JavaScript runtime values reaching the validated code paths are modelled
by `JSVal` (JSON-decoded payloads plus `undefined` for absent fields);
JavaScript numbers are modelled by `JSNum`: exact rationals for finite
doubles, plus the three non-finite values `inf`, `neginf` and `nan`.
The persistence gateway (Supabase) is an external collaborator: each
embedded operation takes the gateway's response as an explicit argument
and returns the list of gateway calls (`Event`s) it performs, so that
"how many inserts happened, in which order, with which arguments" is a
provable statement.
-/

/-- A JavaScript number: a finite double (modelled exactly as a rational),
positive or negative infinity, or NaN. -/
inductive JSNum where
  | fin (q : ℚ)
  | inf
  | neginf
  | nan
deriving DecidableEq, Repr

/-- A JavaScript value as it can appear in a JSON-decoded MQTT payload or
an HTTP request body, extended with `vundefined` for absent object fields. -/
inductive JSVal where
  | vnull
  | vundefined
  | vbool (b : Bool)
  | vnum (n : JSNum)
  | vstr (s : String)
  | vobj (fields : List (String × JSVal))

/-- JavaScript truthiness of a value (`if (v)` / `!v` / `a || b`). -/
def truthy : JSVal → Bool
  | .vnull => false
  | .vundefined => false
  | .vbool b => b
  | .vnum (.fin q) => decide (q ≠ 0)
  | .vnum .inf => true
  | .vnum .neginf => true
  | .vnum .nan => false
  | .vstr s => decide (s ≠ "")
  | .vobj _ => true

/-- The string `typeof v` evaluates to in JavaScript (note
`typeof null == 'object'`). -/
def typeofStr : JSVal → String
  | .vnull => "object"
  | .vundefined => "undefined"
  | .vbool _ => "boolean"
  | .vnum _ => "number"
  | .vstr _ => "string"
  | .vobj _ => "object"

/-- `v` is a keyed mapping (a non-null object). -/
def isJsObj : JSVal → Bool
  | .vobj _ => true
  | _ => false

/-- `v === undefined`. -/
def isUndefinedVal : JSVal → Bool
  | .vundefined => true
  | _ => false

/-- JavaScript property access `v.k`: the field's value when `v` is an
object holding key `k`, `undefined` otherwise (absent keys, primitives). -/
def jsGet (v : JSVal) (k : String) : JSVal :=
  match v with
  | .vobj fields =>
    match fields.lookup k with
    | some w => w
    | none => .vundefined
  | _ => .vundefined

/-- JavaScript `a || b`: `a` when truthy, else `b` (returns the operand
value itself, not a boolean). -/
def jsOr (a b : JSVal) : JSVal :=
  if truthy a then a else b

/-- JavaScript strict equality `v === n` against a number literal
(`NaN` and non-finite values are never strictly equal to a finite
literal; no type coercion). -/
def strictEqNum (v : JSVal) (x : ℚ) : Bool :=
  match v with
  | .vnum (.fin q) => decide (q = x)
  | _ => false

/-- JavaScript strict equality `v === s` against a string literal. -/
def strictEqStr (v : JSVal) (s : String) : Bool :=
  match v with
  | .vstr t => decide (t = s)
  | _ => false

/- ### parseFloat -/

/-- Whitespace skipped by `parseFloat`. -/
def isWsChar (c : Char) : Bool :=
  c = ' ' || c = '\t' || c = '\n' || c = '\r'

/-- Split a leading run of decimal digits off a character list. -/
def takeDigits : List Char → List ℕ × List Char
  | c :: rest =>
    if c.isDigit then
      let p := takeDigits rest
      ((c.toNat - '0'.toNat) :: p.1, p.2)
    else ([], c :: rest)
  | [] => ([], [])

/-- Reassemble a digit list into a natural number. -/
def digitsToNat (ds : List ℕ) : ℕ :=
  ds.foldl (fun a d => a * 10 + d) 0

/-- Parse an optional exponent part (after `e`/`E`); `none` when no digits
follow, in which case `parseFloat` ignores the exponent marker. -/
def parseExpPart (cs : List Char) : Option ℤ :=
  let sp : ℤ × List Char :=
    match cs with
    | '+' :: r => (1, r)
    | '-' :: r => (-1, r)
    | r => (1, r)
  let ds := takeDigits sp.2
  if ds.1 = [] then none else some (sp.1 * (digitsToNat ds.1 : ℤ))

/-- The string literal `Infinity`. -/
def strInfinity : String := "Infinity"

/-- JavaScript `parseFloat` on a string: skip leading whitespace, optional
sign, then either `Infinity` or the longest decimal-literal prefix
(digits, optional fraction, optional exponent); `NaN` when no number can
be parsed. The numeric value is represented exactly as a rational. -/
def parseFloatString (s : String) : JSNum :=
  let cs0 := s.toList.dropWhile isWsChar
  let sp : ℚ × List Char :=
    match cs0 with
    | '+' :: r => (1, r)
    | '-' :: r => (-1, r)
    | r => (1, r)
  if strInfinity.toList.isPrefixOf sp.2 then
    if sp.1 = 1 then .inf else .neginf
  else
    let ip := takeDigits sp.2
    let fp : List ℕ × List Char :=
      match ip.2 with
      | '.' :: r => takeDigits r
      | r => ([], r)
    if ip.1 = [] ∧ fp.1 = [] then .nan
    else
      let mantissa : ℚ := (digitsToNat (ip.1 ++ fp.1) : ℚ)
      let expo : ℤ :=
        (match fp.2 with
         | c :: r =>
           if c = 'e' ∨ c = 'E' then
             match parseExpPart r with
             | some e => e
             | none => 0
           else 0
         | [] => 0) - (fp.1.length : ℤ)
      .fin (sp.1 * mantissa * (10 : ℚ) ^ expo)

/-- JavaScript `parseFloat` on an arbitrary value: numbers pass through
unchanged; strings are parsed; `null`, `undefined`, booleans and plain
objects stringify to text that parses to `NaN`. -/
def parseFloat : JSVal → JSNum
  | .vnum n => n
  | .vstr s => parseFloatString s
  | _ => .nan

/- ### sanitizeFloatValue (src/unnamed/part_000, lines 24-38) -/

/-- JavaScript `Math.round`: half-up toward positive infinity on finite
values; infinities and `NaN` pass through. -/
def jsRound : JSNum → JSNum
  | .fin q => .fin ((⌊q + (1 : ℚ) / 2⌋ : ℤ) : ℚ)
  | .inf => .inf
  | .neginf => .neginf
  | .nan => .nan

/-- Multiplication of a JavaScript number by a positive finite constant. -/
def jsMulPos (n : JSNum) (c : ℚ) : JSNum :=
  match n with
  | .fin q => .fin (q * c)
  | .inf => .inf
  | .neginf => .neginf
  | .nan => .nan

/-- Division of a JavaScript number by a positive finite constant. -/
def jsDivPos (n : JSNum) (c : ℚ) : JSNum :=
  match n with
  | .fin q => .fin (q / c)
  | .inf => .inf
  | .neginf => .neginf
  | .nan => .nan

/-- `sanitizeFloatValue(value, fieldName)`: `null`/`undefined` become 0;
a value whose `parseFloat` is `NaN` becomes 0; otherwise the parsed
number is put through `Math.round(parsed * 1000000) / 1000000`. -/
def sanitizeFloatValue (value : JSVal) : JSNum :=
  match value with
  | .vnull => .fin 0
  | .vundefined => .fin 0
  | v =>
    match parseFloat v with
    | .nan => .fin 0
    | p => jsDivPos (jsRound (jsMulPos p 1000000)) 1000000

/-- Rounding to 6 decimal places, `round(x * 10^6) / 10^6`, as the spec
states it; used to compare against `sanitizeFloatValue`'s behaviour. -/
def round6 (q : ℚ) : ℚ :=
  ((⌊q * 1000000 + (1 : ℚ) / 2⌋ : ℤ) : ℚ) / 1000000

/-- `sanitizeFloatValue` never yields `NaN`. -/
def jsIsFinite : JSNum → Bool
  | .fin _ => true
  | _ => false

/- ### validators (src/unnamed/part_000, lines 41-81) -/

def keyPh : String := "ph"
def keyTemp : String := "temp"
def keyCh4 : String := "ch4"
def keyPressure : String := "pressure"
def keyPhError : String := "ph_error"
def keyPhDeltaError : String := "ph_delta_error"
def keyTempError : String := "temp_error"
def keyTempDeltaError : String := "temp_delta_error"
def keyPumpBase : String := "pump_base"
def keyPumpAcid : String := "pump_acid"
def keyHeater : String := "heater"
def keySolenoid : String := "solenoid"
def keyStirrer : String := "stirrer"
def keySensors : String := "sensors"
def keySensorErrors : String := "sensor_errors"
def keyActuators : String := "actuators"
def keySystem : String := "system"
def keyWarmupActive : String := "warmup_active"
def keyReferencePh : String := "referencePh"
def keyCurrentPh : String := "currentPh"
def keySuccess : String := "success"
def keyStatus : String := "status"
def strSuccess : String := "success"
def typeObject : String := "object"

def errSensors : String := "Invalid sensors data structure"
def errSensorErrors : String := "Invalid sensor_errors data structure"
def errActuators : String := "Invalid actuators data structure"

/-- A validated sensor reading row (table `sensors`). -/
structure SensorReading where
  ph : JSNum
  temp : JSNum
  ch4 : JSNum
  pressure : JSNum
deriving DecidableEq, Repr

/-- A validated sensor error-margin row (table `sensor_errors`, minus the
`sensor_id` reference which is added at insert time). -/
structure SensorErrors where
  ph_error : JSNum
  ph_delta_error : JSNum
  temp_error : JSNum
  temp_delta_error : JSNum
deriving DecidableEq, Repr

/-- A validated actuator-state row (table `actuators`). -/
structure ActuatorData where
  pump_base : JSNum
  pump_acid : JSNum
  heater : JSNum
  solenoid : JSNum
  stirrer : JSNum
deriving DecidableEq, Repr

/-- `validateSensorData(sensors)`: throws on a falsy or non-object input
(`!sensors || typeof sensors !== 'object'`), else sanitizes the four
known fields (absent fields read as `undefined` and sanitize to 0). -/
def validateSensorData (sensors : JSVal) : Except String SensorReading :=
  if ¬ (truthy sensors = true ∧ typeofStr sensors = typeObject) then
    .error errSensors
  else
    .ok { ph := sanitizeFloatValue (jsGet sensors keyPh)
        , temp := sanitizeFloatValue (jsGet sensors keyTemp)
        , ch4 := sanitizeFloatValue (jsGet sensors keyCh4)
        , pressure := sanitizeFloatValue (jsGet sensors keyPressure) }

/-- `validateSensorErrors(sensorErrors)`: same structural check, then the
four error-margin fields. -/
def validateSensorErrors (sensorErrors : JSVal) : Except String SensorErrors :=
  if ¬ (truthy sensorErrors = true ∧ typeofStr sensorErrors = typeObject) then
    .error errSensorErrors
  else
    .ok { ph_error := sanitizeFloatValue (jsGet sensorErrors keyPhError)
        , ph_delta_error := sanitizeFloatValue (jsGet sensorErrors keyPhDeltaError)
        , temp_error := sanitizeFloatValue (jsGet sensorErrors keyTempError)
        , temp_delta_error := sanitizeFloatValue (jsGet sensorErrors keyTempDeltaError) }

/-- `validateActuatorData(actuators)`: same structural check, then the
five actuator fields. -/
def validateActuatorData (actuators : JSVal) : Except String ActuatorData :=
  if ¬ (truthy actuators = true ∧ typeofStr actuators = typeObject) then
    .error errActuators
  else
    .ok { pump_base := sanitizeFloatValue (jsGet actuators keyPumpBase)
        , pump_acid := sanitizeFloatValue (jsGet actuators keyPumpAcid)
        , heater := sanitizeFloatValue (jsGet actuators keyHeater)
        , solenoid := sanitizeFloatValue (jsGet actuators keySolenoid)
        , stirrer := sanitizeFloatValue (jsGet actuators keyStirrer) }

/-- Whether an `Except` is in the error state. -/
def isErr {ε α : Type} : Except ε α → Bool
  | .error _ => true
  | .ok _ => false

/- ### Ingestion pipeline (src/unnamed/part_000, lines 169-358) -/

/-- A persistence-gateway call performed by the ingestion pipeline. -/
inductive Event where
  | insertSensor (r : SensorReading)
  | insertErrors (sensorId : ℕ) (e : SensorErrors)
  | insertActuator (a : ActuatorData)
  | querySensorId
deriving DecidableEq, Repr

/-- The process-wide correlation state mutated by the pipeline
(`currentSensorId`, `isWarmupActive`; part_000 lines 18-21). -/
structure CorrState where
  currentSensorId : Option ℕ
  isWarmupActive : Bool
deriving DecidableEq, Repr

/-- The state at process start: no sensor id, warmup inactive. -/
def initialCorrState : CorrState :=
  { currentSensorId := none, isWarmupActive := false }

/-- `insertSensorData(sensors)` (lines 262-286): validation failure is
caught and yields `null` with no gateway call; otherwise one insert call
is made and the gateway's reply (`resp`, `some id` when an id row came
back, `none` on error) is returned. -/
def insertSensorData (sensors : JSVal) (resp : Option ℕ) :
    Option ℕ × List Event :=
  match validateSensorData sensors with
  | .error _ => (none, [])
  | .ok r => (resp, [.insertSensor r])

/-- `insertSensorErrors(sensorId, sensorErrors)` (lines 288-312):
validation failure is caught and makes no gateway call; otherwise one
insert call referencing `sensorId` (the gateway's own error outcome does
not influence anything beyond logging). -/
def insertSensorErrors (sensorId : ℕ) (sensorErrors : JSVal) : List Event :=
  match validateSensorErrors sensorErrors with
  | .error _ => []
  | .ok e => [.insertErrors sensorId e]

set_option linter.unusedVariables false in
/-- `insertActuatorData(sensorId, actuators)` (lines 314-335): validation
failure is caught and makes no gateway call; otherwise one insert call.
The inserted row spreads only the validated actuator fields —
`sensorId` is used for logging, not persisted. -/
def insertActuatorData (sensorId : ℕ) (actuators : JSVal) : List Event :=
  match validateActuatorData actuators with
  | .error _ => []
  | .ok a => [.insertActuator a]

/-- `getLatestSensorId()` (lines 337-358): one query ordered by
`created_at` descending with limit 1; returns the found id or `null`. -/
def getLatestSensorId (resp : Option ℕ) : Option ℕ × List Event :=
  (resp, [.querySensorId])

/-- `processSensorData(payload)` (lines 169-195): skip everything while
warmup is active; else insert the sensor reading when `payload.sensors`
is truthy, and, when the insert returned a truthy id, record it in
`currentSensorId` and — when `payload.sensor_errors` is also truthy —
insert the error margins referencing that id. -/
def processSensorData (st : CorrState) (payload : JSVal)
    (insResp : Option ℕ) : CorrState × List Event :=
  if st.isWarmupActive then (st, [])
  else
    let sensors := jsGet payload keySensors
    let sensorErrors := jsGet payload keySensorErrors
    if truthy sensors = true ∧ truthy sensorErrors = true then
      match insertSensorData sensors insResp with
      | (some id, evs) =>
        if id ≠ 0 then
          ({ st with currentSensorId := some id },
           evs ++ insertSensorErrors id sensorErrors)
        else (st, evs)
      | (none, evs) => (st, evs)
    else if truthy sensors = true then
      match insertSensorData sensors insResp with
      | (some id, evs) =>
        if id ≠ 0 then ({ st with currentSensorId := some id }, evs)
        else (st, evs)
      | (none, evs) => (st, evs)
    else (st, [])

/-- The sensor-id resolution step of `processControlData`:
`currentSensorId || await getLatestSensorId()` — the stored id when
truthy (non-zero), otherwise one store query whose reply is `queryResp`. -/
def resolveSensorId (current : Option ℕ) (queryResp : Option ℕ) :
    Option ℕ × List Event :=
  match current with
  | some id => if id ≠ 0 then (some id, []) else getLatestSensorId queryResp
  | none => getLatestSensorId queryResp

/-- The warmup-update step of `processControlData` (lines 199-206): when
`payload.system` is truthy and `payload.system.warmup_active !== undefined`,
the warmup flag is reassigned to `warmup_active === 1`; otherwise the
state is untouched. -/
def controlWarmupUpdate (st : CorrState) (payload : JSVal) : CorrState :=
  let sys := jsGet payload keySystem
  let wa := jsGet sys keyWarmupActive
  if truthy sys = true ∧ isUndefinedVal wa = false then
    { st with isWarmupActive := strictEqNum wa 1 }
  else st

/-- `processControlData(payload)` (lines 197-229): first reassign the
warmup flag when `payload.system` is truthy and
`payload.system.warmup_active !== undefined` (the flag becomes
`warmup_active === 1`); then, if warmup is (now) active, stop; else when
`payload.actuators` is truthy resolve a sensor id and, when one truthy id
resolved, insert the actuator row. -/
def processControlData (st : CorrState) (payload : JSVal)
    (queryResp : Option ℕ) : CorrState × List Event :=
  let st1 := controlWarmupUpdate st payload
  if st1.isWarmupActive then (st1, [])
  else
    let actuators := jsGet payload keyActuators
    if truthy actuators = true then
      match resolveSensorId st1.currentSensorId queryResp with
      | (some id, qevs) =>
        if id ≠ 0 then (st1, qevs ++ insertActuatorData id actuators)
        else (st1, qevs)
      | (none, qevs) => (st1, qevs)
    else (st1, [])

/- ### Calibration (src/unnamed/part_000, lines 742-1029) -/

/-- The pending calibration request recorded while a request is in
flight (part_000 lines 978-983). -/
structure PendingCalibration where
  referencePh : JSNum
  currentPh : JSNum
  offset : JSNum
  timestamp : String
deriving DecidableEq, Repr

/-- The record stored in `lastCalibration` when a calibration response
arrives (part_000 lines 748-752). `success` carries the raw JavaScript
value of `payload.success || payload.status === 'success'`. -/
structure LastCalibration where
  timestamp : String
  response : JSVal
  success : JSVal

/-- The process-wide `phCalibrationStatus` object (part_000 lines
409-413). -/
structure PhCalibrationStatus where
  isCalibrating : Bool
  lastCalibration : Option LastCalibration
  pendingCalibration : Option PendingCalibration

/-- The calibration status at process start. -/
def initialCalibrationStatus : PhCalibrationStatus :=
  { isCalibrating := false, lastCalibration := none, pendingCalibration := none }

/-- The row built by `logPhCalibration` for the `calibration_logs` table
(part_000 lines 902-910). -/
structure CalLogData where
  calibration_type : String
  offset_value : JSVal
  reference_ph : JSVal
  current_ph : JSVal
  response_data : JSVal
  success : JSVal
  timestamp : String

/-- An outward call performed by the calibration code: an MQTT publish to
`biogas/ph_offset` or a `calibration_logs` insert. -/
inductive CalEvent where
  | publishOffset (offset referencePh currentPh : JSNum) (timestamp : String)
  | insertCalLog (d : CalLogData)

/-- The derived success value
`payload.success || payload.status === 'success'`. -/
def derivedSuccess (payload : JSVal) : JSVal :=
  jsOr (jsGet payload keySuccess)
    (.vbool (strictEqStr (jsGet payload keyStatus) strSuccess))

def strPhOffsetType : String := "ph_offset"

/-- `phCalibrationStatus.pendingCalibration?.f || null`: optional
chaining yields `undefined` when no request is pending, and `|| null`
then coerces falsy values (including an offset of 0) to `null`. -/
def pendingFieldOrNull (pending : Option PendingCalibration)
    (f : PendingCalibration → JSNum) : JSVal :=
  jsOr (match pending with
        | some p => .vnum (f p)
        | none => .vundefined) .vnull

/-- The log row assembled by `logPhCalibration(calibrationData)`
(lines 900-925). -/
def mkCalLogData (st : PhCalibrationStatus) (payload : JSVal)
    (now : String) : CalLogData :=
  { calibration_type := strPhOffsetType
  , offset_value := pendingFieldOrNull st.pendingCalibration (fun p => p.offset)
  , reference_ph := pendingFieldOrNull st.pendingCalibration (fun p => p.referencePh)
  , current_ph := pendingFieldOrNull st.pendingCalibration (fun p => p.currentPh)
  , response_data := payload
  , success := derivedSuccess payload
  , timestamp := now }

/-- `logPhCalibration(payload)`: always attempts exactly one
`calibration_logs` insert; a gateway failure is only warned about, so the
call's outcome affects nothing. -/
def logPhCalibration (st : PhCalibrationStatus) (payload : JSVal)
    (now : String) : List CalEvent :=
  [.insertCalLog (mkCalLogData st payload now)]

/-- `processPhCalibrationResponse(payload)` (lines 742-768): clear the
in-progress flag, record `lastCalibration` with the derived success
value, then best-effort persist the calibration log.
`pendingCalibration` is left untouched. -/
def processPhCalibrationResponse (st : PhCalibrationStatus)
    (payload : JSVal) (now : String) : PhCalibrationStatus × List CalEvent :=
  let st1 := { st with
               isCalibrating := false
             , lastCalibration := some
                 { timestamp := now
                 , response := payload
                 , success := derivedSuccess payload } }
  (st1, logPhCalibration st1 payload now)

/-- JavaScript subtraction on numbers (`refPh - curPh`). -/
def jsSub : JSNum → JSNum → JSNum
  | .nan, _ => .nan
  | _, .nan => .nan
  | .fin a, .fin b => .fin (a - b)
  | .inf, .inf => .nan
  | .inf, _ => .inf
  | .neginf, .neginf => .nan
  | .neginf, _ => .neginf
  | .fin _, .inf => .neginf
  | .fin _, .neginf => .inf

/-- The HTTP outcome of a `POST /api/calibrate-ph` request. -/
inductive CalResponse where
  | badRequest
  | unavailable
  | conflict
  | publishError
  | ok (offset : JSNum)
deriving DecidableEq, Repr

/-- Whether a calibrate outcome is the success response. -/
def isSuccessResp : CalResponse → Bool
  | .ok _ => true
  | _ => false

/-- The full observable outcome of a `POST /api/calibrate-ph` request. -/
structure CalResult where
  state : PhCalibrationStatus
  response : CalResponse
  events : List CalEvent

/-- The input validation step of the calibrate endpoint:
`!referencePh || !currentPh` → 400, then `isNaN(parseFloat(...))` → 400. -/
def calibrateInputOk (body : JSVal) : Bool :=
  truthy (jsGet body keyReferencePh) && truthy (jsGet body keyCurrentPh)
    && !(parseFloat (jsGet body keyReferencePh) = JSNum.nan)
    && !(parseFloat (jsGet body keyCurrentPh) = JSNum.nan)

/-- `app.post('/api/calibrate-ph')` (part_000 lines 930-1029): reject a
falsy `referencePh`/`currentPh` with 400; reject a `NaN` parse with 400;
compute `offset = sanitizeFloatValue(refPh - curPh)`; reject with 503
when the MQTT client is disconnected; reject with 409 while a calibration
is in progress; else mark in-progress, record the pending request, and
publish the offset envelope — rolling both back on publish failure
(500), returning the offset on publish success. -/
def calibratePh (st : PhCalibrationStatus) (connected : Bool)
    (body : JSVal) (now : String) (publishOk : Bool) : CalResult :=
  let referencePh := jsGet body keyReferencePh
  let currentPh := jsGet body keyCurrentPh
  if ¬ (truthy referencePh = true ∧ truthy currentPh = true) then
    { state := st, response := .badRequest, events := [] }
  else
    let refPh := parseFloat referencePh
    let curPh := parseFloat currentPh
    if refPh = .nan ∨ curPh = .nan then
      { state := st, response := .badRequest, events := [] }
    else
      let offset := sanitizeFloatValue (.vnum (jsSub refPh curPh))
      if ¬ connected = true then
        { state := st, response := .unavailable, events := [] }
      else if st.isCalibrating then
        { state := st, response := .conflict, events := [] }
      else
        let st1 := { st with
                     isCalibrating := true
                   , pendingCalibration := some
                       { referencePh := refPh
                       , currentPh := curPh
                       , offset := offset
                       , timestamp := now } }
        if publishOk then
          { state := st1
          , response := .ok offset
          , events := [.publishOffset offset refPh curPh now] }
        else
          { state := { st1 with isCalibrating := false, pendingCalibration := none }
          , response := .publishError
          , events := [.publishOffset offset refPh curPh now] }

/- ### Concrete inputs used by counterexamples and witnesses -/

/-- The all-zero sensor reading produced by validating `{}`. -/
def zeroSensorReading : SensorReading :=
  { ph := .fin 0, temp := .fin 0, ch4 := .fin 0, pressure := .fin 0 }

/-- The all-zero error margins produced by validating `{}`. -/
def zeroSensorErrors : SensorErrors :=
  { ph_error := .fin 0, ph_delta_error := .fin 0
  , temp_error := .fin 0, temp_delta_error := .fin 0 }

/-- The all-zero actuator row produced by validating `{}`. -/
def zeroActuatorData : ActuatorData :=
  { pump_base := .fin 0, pump_acid := .fin 0, heater := .fin 0
  , solenoid := .fin 0, stirrer := .fin 0 }

/-- A sensor-topic payload whose `sensor_errors` field is present and
truthy but is the number 1 rather than a keyed mapping. -/
def payloadErrorsNonObject : JSVal :=
  .vobj [(keySensors, .vobj []), (keySensorErrors, .vnum (.fin 1))]

/-- A sensor-topic payload with well-formed (empty-object) `sensors` and
`sensor_errors`. -/
def payloadBothValid : JSVal :=
  .vobj [(keySensors, .vobj []), (keySensorErrors, .vobj [])]

/-- A control-topic payload carrying only an (empty-object) `actuators`
field. -/
def payloadActuatorsOnly : JSVal :=
  .vobj [(keyActuators, .vobj [])]

/-- A fixed timestamp value. -/
def ts0 : String := "2025-01-01T00:00:00.000Z"

/-- A later fixed timestamp value. -/
def ts1 : String := "2025-01-01T00:00:01.000Z"

/-- A calibration status with a calibration marked in progress. -/
def busyCalibrationStatus : PhCalibrationStatus :=
  { isCalibrating := true, lastCalibration := none, pendingCalibration := none }

/-- The empty request body `{}`. -/
def emptyBody : JSVal := .vobj []

/-- A pending calibration request as recorded by the calibrate endpoint. -/
def pendingExample : PendingCalibration :=
  { referencePh := .fin 7, currentPh := .fin 6, offset := .fin 1, timestamp := ts0 }

/-- A calibration-response payload reporting success via `status`. -/
def respSuccessPayload : JSVal := .vobj [(keyStatus, .vstr strSuccess)]

/-- The calibration status while `pendingExample` is in flight. -/
def respondingStatus : PhCalibrationStatus :=
  { isCalibrating := true, lastCalibration := none
  , pendingCalibration := some pendingExample }

/-- A calibrate request body whose `referencePh` is the number 0: it
parses as a finite number but is falsy. -/
def zeroPhBody : JSVal :=
  .vobj [(keyReferencePh, .vnum (.fin 0)), (keyCurrentPh, .vnum (.fin 7))]

/-- A calibrate request body with two truthy finite pH values. -/
def validPhBody : JSVal :=
  .vobj [(keyReferencePh, .vnum (.fin 7)), (keyCurrentPh, .vnum (.fin 6))]

/- ## Helper lemmas -/

theorem floor_half_eq_zero : (⌊(1 : ℚ) / 2⌋ : ℤ) = 0 := by
  rw [Int.floor_eq_zero_iff]
  constructor <;> norm_num

theorem round6_zero : round6 0 = 0 := by
  unfold round6
  rw [zero_mul, zero_add, floor_half_eq_zero]
  norm_num

theorem round6_round6 (q : ℚ) : round6 (round6 q) = round6 q := by
  unfold round6
  have h6 : (1000000 : ℚ) ≠ 0 := by norm_num
  rw [div_mul_cancel₀ _ h6, add_comm, Int.floor_add_int, floor_half_eq_zero, zero_add]

theorem sanitizeFloatValue_fin (q : ℚ) :
    sanitizeFloatValue (.vnum (.fin q)) = .fin (round6 q) := rfl

/-- Every output of `sanitizeFloatValue` is `inf`, `neginf`, or a finite
value already rounded to 6 decimal places. -/
theorem sanitize_shape (v : JSVal) :
    sanitizeFloatValue v = .inf ∨ sanitizeFloatValue v = .neginf ∨
      ∃ q, sanitizeFloatValue v = .fin q ∧ round6 q = q := by
  cases v with
  | vnull => exact Or.inr (Or.inr ⟨0, rfl, round6_zero⟩)
  | vundefined => exact Or.inr (Or.inr ⟨0, rfl, round6_zero⟩)
  | vbool b => exact Or.inr (Or.inr ⟨0, rfl, round6_zero⟩)
  | vobj fs => exact Or.inr (Or.inr ⟨0, rfl, round6_zero⟩)
  | vnum n =>
    cases n with
    | fin q =>
      exact Or.inr (Or.inr ⟨round6 q, sanitizeFloatValue_fin q, round6_round6 q⟩)
    | inf => exact Or.inl rfl
    | neginf => exact Or.inr (Or.inl rfl)
    | nan => exact Or.inr (Or.inr ⟨0, rfl, round6_zero⟩)
  | vstr s =>
    show sanitizeFloatValue (.vstr s) = _ ∨ _ ∨ _
    have hs : sanitizeFloatValue (.vstr s)
        = (match parseFloatString s with
           | .nan => .fin 0
           | p => jsDivPos (jsRound (jsMulPos p 1000000)) 1000000) := rfl
    rcases hp : parseFloatString s with q | _ | _ | _ <;> rw [hs, hp]
    · exact Or.inr (Or.inr ⟨round6 q, rfl, round6_round6 q⟩)
    · exact Or.inl rfl
    · exact Or.inr (Or.inl rfl)
    · exact Or.inr (Or.inr ⟨0, rfl, round6_zero⟩)

theorem truthy_jsOr (a b : JSVal) :
    truthy (jsOr a b) = (truthy a || truthy b) := by
  unfold jsOr
  by_cases h : truthy a = true <;> simp [h]

/- ## Claim theorems -/

/-- Claim C4: `sanitizeFloatValue` returns 0 on `null`, on `undefined`,
and on any value that does not parse as a number; on a finite numeric
input it returns the input rounded to 6 decimal places via
`round(x*10^6)/10^6`; it is a total function (never throws) and is
idempotent. -/
theorem sanitize_spec :
    sanitizeFloatValue .vnull = .fin 0 ∧
    sanitizeFloatValue .vundefined = .fin 0 ∧
    (∀ v, parseFloat v = .nan → sanitizeFloatValue v = .fin 0) ∧
    (∀ q, sanitizeFloatValue (.vnum (.fin q)) = .fin (round6 q)) ∧
    (∀ v, sanitizeFloatValue (.vnum (sanitizeFloatValue v)) = sanitizeFloatValue v) := by
  refine ⟨rfl, rfl, ?_, sanitizeFloatValue_fin, ?_⟩
  · intro v h
    cases v with
    | vnull => rfl
    | vundefined => rfl
    | vbool b => rfl
    | vobj fs => rfl
    | vnum n =>
      have hn : n = .nan := h
      rw [hn]
      rfl
    | vstr s =>
      have hs : sanitizeFloatValue (.vstr s)
          = (match parseFloatString s with
             | .nan => .fin 0
             | p => jsDivPos (jsRound (jsMulPos p 1000000)) 1000000) := rfl
      have hp : parseFloatString s = .nan := h
      rw [hs, hp]
  · intro v
    rcases sanitize_shape v with h | h | ⟨q, h, hq⟩ <;> rw [h]
    · rfl
    · rfl
    · rw [sanitizeFloatValue_fin, hq]

/-- Claim C4 witness: concrete instances — a boolean parses to `NaN` and
sanitizes to 0, and sanitizing the already-sanitized `null` is stable. -/
theorem sanitize_spec_witness :
    sanitizeFloatValue (.vbool true) = .fin 0 ∧
    sanitizeFloatValue (.vnum (sanitizeFloatValue .vnull)) = sanitizeFloatValue .vnull :=
  ⟨sanitize_spec.2.2.1 (.vbool true) rfl, sanitize_spec.2.2.2.2 .vnull⟩

/-- Claim C5 counterexample: `sanitizeFloatValue` does not coerce
non-finite numeric inputs to a finite value — the number `Infinity`, and
the string `"Infinity"` which parses to it, both sanitize to `Infinity`,
which is not finite. -/
theorem sanitize_infinity_counterexample :
    sanitizeFloatValue (.vnum .inf) = .inf ∧
    sanitizeFloatValue (.vstr strInfinity) = .inf ∧
    jsIsFinite (sanitizeFloatValue (.vnum .inf)) = false :=
  ⟨rfl, rfl, rfl⟩

/-- Claim C5 (amended): the result of `sanitizeFloatValue` is never `NaN`
and never `undefined`; missing or unparseable values are coerced to 0 and
finite values are rounded to 6 decimal places, but an input of
`±Infinity` (or a string parsing to it) passes through as `±Infinity`, so
the result is not always finite. -/
theorem sanitize_never_nan :
    ∀ v, sanitizeFloatValue v ≠ .nan ∧
      (sanitizeFloatValue v = .inf ∨ sanitizeFloatValue v = .neginf ∨
        ∃ q, sanitizeFloatValue v = .fin q ∧ round6 q = q) := by
  intro v
  refine ⟨?_, sanitize_shape v⟩
  rcases sanitize_shape v with h | h | ⟨q, h, _⟩ <;> rw [h] <;> intro hc <;> cases hc

/-- Claim C5 witness: the never-`NaN` guarantee at a concrete input. -/
theorem sanitize_never_nan_witness :
    sanitizeFloatValue (.vstr strInfinity) ≠ .nan :=
  (sanitize_never_nan (.vstr strInfinity)).1

theorem controlWarmupUpdate_currentSensorId (st : CorrState) (p : JSVal) :
    (controlWarmupUpdate st p).currentSensorId = st.currentSensorId := by
  by_cases h : (truthy (jsGet p keySystem) = true ∧
      isUndefinedVal (jsGet (jsGet p keySystem) keyWarmupActive) = false) <;>
    simp [controlWarmupUpdate, h]

theorem processControlData_fst (st : CorrState) (p : JSVal) (q : Option ℕ) :
    (processControlData st p q).1 = controlWarmupUpdate st p := by
  by_cases h : (controlWarmupUpdate st p).isWarmupActive = true
  · simp [processControlData, h]
  · by_cases ha : truthy (jsGet p keyActuators) = true
    · rcases hr : resolveSensorId (controlWarmupUpdate st p).currentSensorId q
        with ⟨sid, qevs⟩
      rcases sid with _ | id
      · simp [processControlData, h, ha, hr]
      · by_cases hid : id = 0
        · simp [processControlData, h, ha, hr, hid]
        · simp [processControlData, h, ha, hr, hid]
    · simp [processControlData, h, ha]

theorem processSensorData_fst_cases (st : CorrState) (p : JSVal) (r : Option ℕ) :
    (processSensorData st p r).1 = st ∨
      ∃ id, id ≠ 0 ∧
        (processSensorData st p r).1 = { st with currentSensorId := some id } := by
  by_cases hwarm : st.isWarmupActive = true
  · exact Or.inl (by simp [processSensorData, hwarm])
  · by_cases hboth : (truthy (jsGet p keySensors) = true ∧
        truthy (jsGet p keySensorErrors) = true)
    · rcases hins : insertSensorData (jsGet p keySensors) r with ⟨sid, evs⟩
      rcases sid with _ | id
      · exact Or.inl (by simp [processSensorData, hwarm, hboth, hins])
      · by_cases hid : id = 0
        · exact Or.inl (by simp [processSensorData, hwarm, hboth, hins, hid])
        · exact Or.inr ⟨id, hid, by simp [processSensorData, hwarm, hboth, hins, hid]⟩
    · by_cases hs : truthy (jsGet p keySensors) = true
      · rcases hins : insertSensorData (jsGet p keySensors) r with ⟨sid, evs⟩
        rcases sid with _ | id
        · exact Or.inl (by simp [processSensorData, hwarm, hboth, hs, hins])
        · by_cases hid : id = 0
          · exact Or.inl (by simp [processSensorData, hwarm, hboth, hs, hins, hid])
          · refine Or.inr ⟨id, hid, ?_⟩
            simp only [processSensorData, hwarm, Bool.false_eq_true, if_false,
              hboth, hins, hs, and_true, if_true, hid, ite_not]
            split <;> simp [hwarm]
      · exact Or.inl (by simp [processSensorData, hwarm, hboth, hs])

/-- Claim C1: while the warmup flag is true during a message's
processing, the ingestion pipeline performs zero persistence-gateway
calls: a sensor-topic message inserts nothing, and a control-topic
message whose effective warmup flag (after the message's own
`system.warmup_active` update, which the code applies before the gate)
is true inserts nothing. -/
theorem warmup_blocks_inserts :
    (∀ st payload insResp, st.isWarmupActive = true →
      (processSensorData st payload insResp).2 = []) ∧
    (∀ st payload queryResp,
      (processControlData st payload queryResp).1.isWarmupActive = true →
      (processControlData st payload queryResp).2 = []) := by
  constructor
  · intro st p r h
    unfold processSensorData
    simp [h]
  · intro st p q h
    rw [processControlData_fst] at h
    unfold processControlData
    simp [h]

/-- Claim C1 witness: a warmup-active state with a sensor payload and
with a control payload, both producing no gateway calls. -/
theorem warmup_blocks_inserts_witness :
    (processSensorData { currentSensorId := none, isWarmupActive := true }
      payloadBothValid (some 5)).2 = [] ∧
    (processControlData { currentSensorId := none, isWarmupActive := true }
      payloadActuatorsOnly none).2 = [] :=
  ⟨warmup_blocks_inserts.1 _ _ _ rfl, warmup_blocks_inserts.2 _ _ _ rfl⟩

/-- Claim C2 counterexample: a sensor-topic payload containing both
`sensors` and `sensor_errors` (the latter present and truthy, but the
number 1), processed with warmup off and a gateway that returns id 5:
exactly one SensorReading insert occurs and **no** SensorErrorMargin
insert follows, although the claim requires one referencing id 5. -/
theorem sensor_nonobject_errors_counterexample :
    truthy (jsGet payloadErrorsNonObject keySensorErrors) = true ∧
    initialCorrState.isWarmupActive = false ∧
    (processSensorData initialCorrState payloadErrorsNonObject (some 5)).2
      = [Event.insertSensor zeroSensorReading] :=
  ⟨rfl, rfl, rfl⟩

/-- Claim C2 (amended): for a sensor-topic message (warmup off) whose
`sensors` and `sensor_errors` fields are both truthy: if `sensors` fails
structural validation, no gateway insert at all occurs; otherwise exactly
one SensorReading insert occurs first, and it is followed by exactly one
SensorErrorMargin insert referencing the returned id precisely when the
gateway returned a truthy (non-zero) id and `sensor_errors` passes
structural validation; when no id (or id 0) is returned, or
`sensor_errors` fails validation, no SensorErrorMargin insert occurs. -/
theorem sensor_insert_sequence :
    ∀ st payload insResp,
      st.isWarmupActive = false →
      truthy (jsGet payload keySensors) = true →
      truthy (jsGet payload keySensorErrors) = true →
      (isErr (validateSensorData (jsGet payload keySensors)) = true →
        (processSensorData st payload insResp).2 = []) ∧
      (∀ r, validateSensorData (jsGet payload keySensors) = .ok r →
        (insResp = none →
          (processSensorData st payload insResp).2 = [.insertSensor r]) ∧
        (insResp = some 0 →
          (processSensorData st payload insResp).2 = [.insertSensor r]) ∧
        (∀ id, insResp = some id → id ≠ 0 →
          (∀ e, validateSensorErrors (jsGet payload keySensorErrors) = .ok e →
            (processSensorData st payload insResp).2
              = [.insertSensor r, .insertErrors id e]) ∧
          (isErr (validateSensorErrors (jsGet payload keySensorErrors)) = true →
            (processSensorData st payload insResp).2 = [.insertSensor r]))) := by
  intro st payload insResp hw hs he
  unfold processSensorData
  simp only [hw, Bool.false_eq_true, if_false, hs, he, and_self, if_true]
  constructor
  · intro herr
    rcases hval : validateSensorData (jsGet payload keySensors) with msg | r
    · simp [insertSensorData, hval]
    · rw [hval] at herr
      cases herr
  · intro r hr
    have hins : insertSensorData (jsGet payload keySensors) insResp
        = (insResp, [.insertSensor r]) := by
      simp [insertSensorData, hr]
    rw [hins]
    refine ⟨?_, ?_, ?_⟩
    · intro hnone
      rw [hnone]
    · intro hzero
      rw [hzero]
      simp
    · intro id hid hid0
      rw [hid]
      constructor
      · intro e heok
        simp [insertSensorErrors, heok, hid0]
      · intro herr
        rcases hval : validateSensorErrors (jsGet payload keySensorErrors) with msg | e
        · simp [insertSensorErrors, hval, hid0]
        · rw [hval] at herr
          cases herr

/-- Claim C2 witness: with well-formed `sensors` and `sensor_errors` and
a gateway returning id 5, the events are exactly the SensorReading insert
followed by the SensorErrorMargin insert referencing id 5. -/
theorem sensor_insert_sequence_witness :
    (processSensorData initialCorrState payloadBothValid (some 5)).2
      = [Event.insertSensor zeroSensorReading, Event.insertErrors 5 zeroSensorErrors] :=
  ((((sensor_insert_sequence initialCorrState payloadBothValid (some 5) rfl rfl rfl).2
      zeroSensorReading rfl).2.2 5 rfl (by decide)).1 zeroSensorErrors rfl)

/-- Claim C3: with warmup off and a truthy `actuators` field — a set
(necessarily non-zero, by the preservation facts also proved here)
`currentSensorId` is used with no store query; an unset one triggers the
latest-sensor-id query before any actuator insert; and when neither
source yields an id no ActuatorState insert happens. The first two
conjuncts show `currentSensorId` is never `some 0` in a reachable state
(it starts as `none`, sensor processing only stores non-zero ids, control
processing never changes it). -/
theorem actuator_id_resolution :
    (∀ st p r, st.currentSensorId ≠ some 0 →
      (processSensorData st p r).1.currentSensorId ≠ some 0) ∧
    (∀ st p q, (processControlData st p q).1.currentSensorId = st.currentSensorId) ∧
    initialCorrState.currentSensorId = none ∧
    (∀ st payload queryResp,
      (processControlData st payload queryResp).1.isWarmupActive = false →
      truthy (jsGet payload keyActuators) = true →
      (∀ id, st.currentSensorId = some id → id ≠ 0 →
        (processControlData st payload queryResp).2
          = insertActuatorData id (jsGet payload keyActuators)) ∧
      (st.currentSensorId = none →
        (processControlData st payload queryResp).2.head? = some Event.querySensorId) ∧
      (∀ m, st.currentSensorId = none → queryResp = some m → m ≠ 0 →
        (processControlData st payload queryResp).2
          = Event.querySensorId :: insertActuatorData m (jsGet payload keyActuators)) ∧
      (st.currentSensorId = none → queryResp = none →
        (processControlData st payload queryResp).2 = [Event.querySensorId])) := by
  refine ⟨?_, ?_, rfl, ?_⟩
  · intro st p r h
    rcases processSensorData_fst_cases st p r with hc | ⟨id, hid, hc⟩ <;> rw [hc]
    · exact h
    · simp [hid]
  · intro st p q
    rw [processControlData_fst, controlWarmupUpdate_currentSensorId]
  · intro st payload queryResp hw ha
    rw [processControlData_fst] at hw
    unfold processControlData
    simp only [hw, Bool.false_eq_true, if_false, ha, if_true]
    rw [controlWarmupUpdate_currentSensorId]
    refine ⟨?_, ?_, ?_, ?_⟩
    · intro id hid hid0
      rw [hid]
      simp [resolveSensorId, hid0]
    · intro hnone
      rw [hnone]
      simp only [resolveSensorId, getLatestSensorId]
      rcases queryResp with _ | m
      · rfl
      · by_cases hm : m ≠ 0 <;> simp [hm]
    · intro m hnone hq hm
      rw [hnone, hq]
      simp [resolveSensorId, getLatestSensorId, hm]
    · intro hnone hq
      rw [hnone, hq]
      simp [resolveSensorId, getLatestSensorId]

/-- Claim C3 witness: with no stored id and a query returning nothing,
the events are exactly one query and no actuator insert; preservation at
a concrete state. -/
theorem actuator_id_resolution_witness :
    (processControlData { currentSensorId := none, isWarmupActive := false }
      payloadActuatorsOnly none).2 = [Event.querySensorId] ∧
    (processSensorData { currentSensorId := some 5, isWarmupActive := false }
      payloadBothValid (some 3)).1.currentSensorId ≠ some 0 :=
  ⟨(actuator_id_resolution.2.2.2 { currentSensorId := none, isWarmupActive := false }
      payloadActuatorsOnly none rfl rfl).2.2.2 rfl rfl,
   actuator_id_resolution.1 { currentSensorId := some 5, isWarmupActive := false }
     payloadBothValid (some 3) (by simp)⟩

/-- Claim C10: a control-topic payload in which `system` is absent (or
not truthy) or `system.warmup_active` is `undefined` leaves the warmup
flag unchanged; when the guard holds the flag is reassigned and becomes
true exactly when `warmup_active` is strictly the number 1. -/
theorem warmup_flag_frame :
    (∀ wa, strictEqNum wa 1 = true ↔ wa = .vnum (.fin 1)) ∧
    ∀ st payload queryResp,
      ((truthy (jsGet payload keySystem) = true ∧
        isUndefinedVal (jsGet (jsGet payload keySystem) keyWarmupActive) = false) →
        (processControlData st payload queryResp).1.isWarmupActive
          = strictEqNum (jsGet (jsGet payload keySystem) keyWarmupActive) 1) ∧
      (¬(truthy (jsGet payload keySystem) = true ∧
         isUndefinedVal (jsGet (jsGet payload keySystem) keyWarmupActive) = false) →
        (processControlData st payload queryResp).1.isWarmupActive
          = st.isWarmupActive) ∧
      (jsGet payload keySystem = .vundefined →
        (processControlData st payload queryResp).1.isWarmupActive
          = st.isWarmupActive) ∧
      (isUndefinedVal (jsGet (jsGet payload keySystem) keyWarmupActive) = true →
        (processControlData st payload queryResp).1.isWarmupActive
          = st.isWarmupActive) := by
  constructor
  · intro wa
    cases wa with
    | vnum n =>
      cases n with
      | fin q => simp [strictEqNum]
      | inf => simp [strictEqNum]
      | neginf => simp [strictEqNum]
      | nan => simp [strictEqNum]
    | vnull => simp [strictEqNum]
    | vundefined => simp [strictEqNum]
    | vbool b => simp [strictEqNum]
    | vstr s => simp [strictEqNum]
    | vobj fs => simp [strictEqNum]
  · intro st payload queryResp
    refine ⟨?_, ?_, ?_, ?_⟩
    · intro h
      rw [processControlData_fst]
      unfold controlWarmupUpdate
      simp [h]
    · intro h
      rw [processControlData_fst]
      unfold controlWarmupUpdate
      simp only [if_neg h]
    · intro h
      rw [processControlData_fst]
      unfold controlWarmupUpdate
      rw [h]
      simp [truthy]
    · intro h
      rw [processControlData_fst]
      unfold controlWarmupUpdate
      simp [h]

/-- Claim C10 witness: a control payload with no `system` field leaves a
true warmup flag true; one with `warmup_active: 1` turns it on. -/
theorem warmup_flag_frame_witness :
    (processControlData { currentSensorId := none, isWarmupActive := true }
      payloadActuatorsOnly none).1.isWarmupActive = true :=
  ((warmup_flag_frame.2 { currentSensorId := none, isWarmupActive := true }
    payloadActuatorsOnly none).2.2.1 rfl)

/-- Claim C7 counterexample: processing a successful calibration
response clears the in-progress flag but leaves the pending
CalibrationRequest in Correlation State — it is still held afterwards,
contradicting "no longer held". -/
theorem calibration_response_retains_pending :
    respondingStatus.pendingCalibration = some pendingExample ∧
    (processPhCalibrationResponse respondingStatus respSuccessPayload ts1).1.isCalibrating
      = false ∧
    (processPhCalibrationResponse respondingStatus respSuccessPayload ts1).1.pendingCalibration
      = some pendingExample :=
  ⟨rfl, rfl, rfl⟩

/-- Claim C7 (amended): processing a calibration response clears the
in-progress flag; `lastCalibration` records the payload, the timestamp,
and a derived success value that is truthy exactly when `payload.success`
is truthy or `payload.status === 'success'`; exactly one best-effort
calibration-log insert is attempted, carrying the same derived success
flag (the insert's outcome influences neither state nor result — the
embedding takes no gateway reply for it, mirroring the warn-only catch);
and the pending CalibrationRequest **remains** in Correlation State
unchanged — it is not cleared when the response arrives. -/
theorem calibration_response_spec :
    ∀ st payload now,
      (processPhCalibrationResponse st payload now).1.isCalibrating = false ∧
      (∃ lc, (processPhCalibrationResponse st payload now).1.lastCalibration = some lc ∧
        lc.response = payload ∧ lc.timestamp = now ∧
        truthy lc.success
          = (truthy (jsGet payload keySuccess)
             || strictEqStr (jsGet payload keyStatus) strSuccess)) ∧
      (processPhCalibrationResponse st payload now).2
        = [CalEvent.insertCalLog (mkCalLogData st payload now)] ∧
      (mkCalLogData st payload now).success = derivedSuccess payload ∧
      (processPhCalibrationResponse st payload now).1.pendingCalibration
        = st.pendingCalibration := by
  intro st payload now
  refine ⟨rfl, ⟨_, rfl, rfl, rfl, ?_⟩, rfl, rfl, rfl⟩
  unfold derivedSuccess
  rw [truthy_jsOr]
  rfl

/-- Claim C6 counterexample: with a calibration already in progress, a
calibrate call whose body is `{}` fails with 400 (input validation runs
first), not with the 409 conflict the claim requires for every call made
while in progress. -/
theorem calibrate_busy_bad_input_counterexample :
    busyCalibrationStatus.isCalibrating = true ∧
    (calibratePh busyCalibrationStatus true emptyBody ts0 true).response
      = CalResponse.badRequest ∧
    CalResponse.badRequest ≠ CalResponse.conflict :=
  ⟨rfl, rfl, by decide⟩

/-- Claim C6 (amended): whenever calibrate is invoked while a calibration
is in progress, no offset is published, the state — including the pending
calibration and the in-progress flag — is unchanged, and the request
fails (with 409 precisely when the inputs pass validation and the bus is
connected; with the 400 or 503 of the earlier checks otherwise), so a
second concurrent call always fails while the first is in flight. -/
theorem calibrate_busy_blocks :
    ∀ st conn body now pub, st.isCalibrating = true →
      (calibratePh st conn body now pub).state = st ∧
      (calibratePh st conn body now pub).events = [] ∧
      ((calibratePh st conn body now pub).response = CalResponse.badRequest ∨
       (calibratePh st conn body now pub).response = CalResponse.unavailable ∨
       (calibratePh st conn body now pub).response = CalResponse.conflict) ∧
      (calibrateInputOk body = true → conn = true →
        (calibratePh st conn body now pub).response = CalResponse.conflict) := by
  intro st conn body now pub h
  by_cases h1 : (truthy (jsGet body keyReferencePh) = true ∧
      truthy (jsGet body keyCurrentPh) = true)
  · by_cases h2 : (parseFloat (jsGet body keyReferencePh) = JSNum.nan ∨
        parseFloat (jsGet body keyCurrentPh) = JSNum.nan)
    · refine ⟨by simp [calibratePh, h1, h2], by simp [calibratePh, h1, h2],
        Or.inl (by simp [calibratePh, h1, h2]), ?_⟩
      intro hok _
      simp only [calibrateInputOk, Bool.and_eq_true, Bool.not_eq_true',
        decide_eq_false_iff_not] at hok
      rcases h2 with h2 | h2
      · exact absurd h2 hok.1.2
      · exact absurd h2 hok.2
    · by_cases hc : conn = true
      · exact ⟨by simp [calibratePh, h1, h2, hc, h], by simp [calibratePh, h1, h2, hc, h],
          Or.inr (Or.inr (by simp [calibratePh, h1, h2, hc, h])),
          fun _ _ => by simp [calibratePh, h1, h2, hc, h]⟩
      · refine ⟨by simp [calibratePh, h1, h2, hc], by simp [calibratePh, h1, h2, hc],
          Or.inr (Or.inl (by simp [calibratePh, h1, h2, hc])), ?_⟩
        intro _ hconn
        exact absurd hconn hc
  · refine ⟨by simp [calibratePh, h1], by simp [calibratePh, h1],
      Or.inl (by simp [calibratePh, h1]), ?_⟩
    intro hok _
    simp only [calibrateInputOk, Bool.and_eq_true, Bool.not_eq_true',
      decide_eq_false_iff_not] at hok
    exact absurd ⟨hok.1.1.1, hok.1.1.2⟩ h1

/-- Claim C6 witness: a busy state with a valid body and a connected bus
yields precisely the 409 conflict. -/
theorem calibrate_busy_blocks_witness :
    (calibratePh busyCalibrationStatus true validPhBody ts0 true).response
      = CalResponse.conflict :=
  (calibrate_busy_blocks busyCalibrationStatus true validPhBody ts0 true rfl).2.2.2
    rfl rfl

/-- Claim C8 counterexample: a body whose `referencePh` is the number 0 —
which parses as the finite number 0 — is rejected with 400, because the
code's falsy-check `!referencePh` runs before `parseFloat`, contradicting
"validation succeeds for every pair of inputs that parse as finite
numbers". -/
theorem calibrate_rejects_zero_counterexample :
    parseFloat (jsGet zeroPhBody keyReferencePh) = JSNum.fin 0 ∧
    parseFloat (jsGet zeroPhBody keyCurrentPh) = JSNum.fin 7 ∧
    (calibratePh initialCalibrationStatus true zeroPhBody ts0 true).response
      = CalResponse.badRequest :=
  ⟨rfl, rfl, rfl⟩

/-- Claim C8 (amended): calibrate fails with 400 exactly when an input is
absent or falsy (including the finite number 0 or a falsy string) or its
`parseFloat` is `NaN`; any pair of truthy inputs whose `parseFloat` is a
number — finite or not (`Infinity` passes, since only `isNaN` is
checked) — proceeds past input validation. -/
theorem calibrate_validation_iff :
    ∀ st conn body now pub,
      ((calibratePh st conn body now pub).response = CalResponse.badRequest
        ↔ ¬(truthy (jsGet body keyReferencePh) = true ∧
            truthy (jsGet body keyCurrentPh) = true ∧
            parseFloat (jsGet body keyReferencePh) ≠ JSNum.nan ∧
            parseFloat (jsGet body keyCurrentPh) ≠ JSNum.nan)) := by
  intro st conn body now pub
  by_cases h1 : (truthy (jsGet body keyReferencePh) = true ∧
      truthy (jsGet body keyCurrentPh) = true)
  · by_cases h2 : (parseFloat (jsGet body keyReferencePh) = JSNum.nan ∨
        parseFloat (jsGet body keyCurrentPh) = JSNum.nan)
    · constructor
      · intro _ hcon
        rcases h2 with h2 | h2
        · exact hcon.2.2.1 h2
        · exact hcon.2.2.2 h2
      · intro _
        simp [calibratePh, h1, h2]
    · have hresp : (calibratePh st conn body now pub).response ≠ CalResponse.badRequest := by
        by_cases hc : conn = true
        · by_cases hcal : st.isCalibrating = true
          · simp [calibratePh, h1, h2, hc, hcal]
          · by_cases hp : pub = true <;> simp [calibratePh, h1, h2, hc, hcal, hp]
        · simp [calibratePh, h1, h2, hc]
      constructor
      · intro hbad
        exact absurd hbad hresp
      · intro hneg
        push_neg at h2
        exact absurd ⟨h1.1, h1.2, h2.1, h2.2⟩ hneg
  · constructor
    · intro _ hcon
      exact h1 ⟨hcon.1, hcon.2.1⟩
    · intro _
      simp [calibratePh, h1]

/-- Claim C8 witness: a valid body is not rejected with 400. -/
theorem calibrate_validation_iff_witness :
    ¬((calibratePh initialCalibrationStatus true validPhBody ts0 true).response
        = CalResponse.badRequest) :=
  fun hbad =>
    ((calibrate_validation_iff initialCalibrationStatus true validPhBody ts0 true).mp hbad)
      ⟨rfl, rfl, fun hc => JSNum.noConfusion hc, fun hc => JSNum.noConfusion hc⟩

/-- Claim C9: the three validators fail with a structural error exactly
when the input is not a keyed mapping; on a keyed mapping each returns
the record of its fixed field set with every field sanitized (so unknown
fields are dropped), a missing field sanitizes to 0, `validateSensorData
{}` is the all-zero reading, and `validateActuatorData null` fails. -/
theorem validators_spec :
    (∀ v, (isErr (validateSensorData v) = true ↔ isJsObj v = false) ∧
          (isErr (validateSensorErrors v) = true ↔ isJsObj v = false) ∧
          (isErr (validateActuatorData v) = true ↔ isJsObj v = false)) ∧
    (∀ fs,
      validateSensorData (.vobj fs) = .ok
        { ph := sanitizeFloatValue (jsGet (.vobj fs) keyPh)
        , temp := sanitizeFloatValue (jsGet (.vobj fs) keyTemp)
        , ch4 := sanitizeFloatValue (jsGet (.vobj fs) keyCh4)
        , pressure := sanitizeFloatValue (jsGet (.vobj fs) keyPressure) } ∧
      validateSensorErrors (.vobj fs) = .ok
        { ph_error := sanitizeFloatValue (jsGet (.vobj fs) keyPhError)
        , ph_delta_error := sanitizeFloatValue (jsGet (.vobj fs) keyPhDeltaError)
        , temp_error := sanitizeFloatValue (jsGet (.vobj fs) keyTempError)
        , temp_delta_error := sanitizeFloatValue (jsGet (.vobj fs) keyTempDeltaError) } ∧
      validateActuatorData (.vobj fs) = .ok
        { pump_base := sanitizeFloatValue (jsGet (.vobj fs) keyPumpBase)
        , pump_acid := sanitizeFloatValue (jsGet (.vobj fs) keyPumpAcid)
        , heater := sanitizeFloatValue (jsGet (.vobj fs) keyHeater)
        , solenoid := sanitizeFloatValue (jsGet (.vobj fs) keySolenoid)
        , stirrer := sanitizeFloatValue (jsGet (.vobj fs) keyStirrer) }) ∧
    (∀ fs k, fs.lookup k = none →
      sanitizeFloatValue (jsGet (.vobj fs) k) = .fin 0) ∧
    validateSensorData (.vobj []) = .ok zeroSensorReading ∧
    isErr (validateActuatorData .vnull) = true := by
  have herr : ∀ v, isJsObj v = false →
      validateSensorData v = .error errSensors ∧
      validateSensorErrors v = .error errSensorErrors ∧
      validateActuatorData v = .error errActuators := by
    intro v hv
    have hcond : ¬(truthy v = true ∧ typeofStr v = typeObject) := by
      cases v with
      | vnull => rintro ⟨ht, _⟩; exact absurd ht (by decide)
      | vundefined => rintro ⟨ht, _⟩; exact absurd ht (by decide)
      | vbool b =>
        rintro ⟨_, ht⟩
        simp only [typeofStr] at ht
        exact absurd ht (by decide)
      | vnum n =>
        rintro ⟨_, ht⟩
        simp only [typeofStr] at ht
        exact absurd ht (by decide)
      | vstr s =>
        rintro ⟨_, ht⟩
        simp only [typeofStr] at ht
        exact absurd ht (by decide)
      | vobj fs => cases hv
    exact ⟨by unfold validateSensorData; rw [if_pos hcond],
           by unfold validateSensorErrors; rw [if_pos hcond],
           by unfold validateActuatorData; rw [if_pos hcond]⟩
  refine ⟨?_, ?_, ?_, rfl, rfl⟩
  · intro v
    by_cases hobj : isJsObj v = false
    · obtain ⟨h1, h2, h3⟩ := herr v hobj
      exact ⟨by simp [h1, isErr, hobj], by simp [h2, isErr, hobj],
        by simp [h3, isErr, hobj]⟩
    · cases v with
      | vobj fs =>
        have hok : ¬¬(truthy (JSVal.vobj fs) = true ∧
            typeofStr (JSVal.vobj fs) = typeObject) := not_not_intro ⟨rfl, rfl⟩
        refine ⟨?_, ?_, ?_⟩ <;>
          constructor <;> intro hx
        · exact absurd hx (by rw [validateSensorData, if_neg hok]; exact Bool.noConfusion)
        · exact absurd hx (by exact Bool.noConfusion)
        · exact absurd hx (by rw [validateSensorErrors, if_neg hok]; exact Bool.noConfusion)
        · exact absurd hx (by exact Bool.noConfusion)
        · exact absurd hx (by rw [validateActuatorData, if_neg hok]; exact Bool.noConfusion)
        · exact absurd hx (by exact Bool.noConfusion)
      | vnull => exact absurd rfl hobj
      | vundefined => exact absurd rfl hobj
      | vbool b => exact absurd rfl hobj
      | vnum n => exact absurd rfl hobj
      | vstr s => exact absurd rfl hobj
  · intro fs
    have hok : ¬¬(truthy (JSVal.vobj fs) = true ∧
        typeofStr (JSVal.vobj fs) = typeObject) := not_not_intro ⟨rfl, rfl⟩
    exact ⟨by unfold validateSensorData; rw [if_neg hok],
           by unfold validateSensorErrors; rw [if_neg hok],
           by unfold validateActuatorData; rw [if_neg hok]⟩
  · intro fs k hk
    have hu : jsGet (JSVal.vobj fs) k = .vundefined := by
      simp [jsGet, hk]
    rw [hu]
    rfl

/-- Claim C9 witness: a number is rejected by `validateSensorData`, and a
field missing from an object sanitizes to 0. -/
theorem validators_spec_witness :
    isErr (validateSensorData (JSVal.vnum (JSNum.fin 3))) = true ∧
    sanitizeFloatValue (jsGet (JSVal.vobj []) keyPh) = JSNum.fin 0 :=
  ⟨(validators_spec.1 (JSVal.vnum (JSNum.fin 3))).1.mpr rfl,
   validators_spec.2.2.1 [] keyPh rfl⟩
